import Mathlib

/-
Shallow embedding of the sandbox orchestrator (orchestrator/app/auth.py,
orchestrator/app/droplet.py, orchestrator/app/main.py).

Modelling conventions:
- Timestamps (ISO-8601 strings in the source, compared lexicographically,
  which agrees with chronological order for a fixed format) are modelled as
  natural-number ticks; the 24-hour session duration is 24 ticks.
- The sha256 hexdigest of a token is modelled as an uninterpreted digest
  function `hash : String -> Nat` passed explicitly to each operation.
- The session file (sessions.json) is modelled as an association list from
  digest to record; a Python dict write `d[k] = v` is an insert that replaces
  any entry with the same key, `del d[k]` removes it.
- HTTP effects are modelled by passing each operation the outcome of every
  remote call it can make (an `Except PyErr` value: `Except.error` means the
  Python call raised) and by returning, next to the operation's result, the
  list of provider/agent requests the operation issued. A public operation
  whose Lean result type is `Except PyErr _` returns `Except.error e` exactly
  when the Python function lets the exception `e` escape to its caller;
  operations whose result type is a plain record never raise.
- Python dicts returned by the operations are modelled as structures; a key
  that is absent in some variants of the source dict and None in others is
  collapsed to `Option.none` (no claim depends on that distinction).
-/

namespace Orchestrator

/-- Session record stored under the token digest (auth.py `sessions[hash]`). -/
structure SessionData where
  user : String
  created_at : Nat
  expires_at : Nat
deriving DecidableEq

/-- The session store: contents of sessions.json, keyed by token digest. -/
abbrev Store := List (Nat × SessionData)

/-- auth.py SESSION_DURATION_HOURS = 24. -/
def SESSION_DURATION_HOURS : Nat := 24

/-- Dict lookup `sessions.get(k)` / `sessions[k]`. -/
def store_lookup (k : Nat) (s : Store) : Option SessionData :=
  (s.find? (fun kd => kd.1 == k)).map (fun kd => kd.2)

/-- Dict assignment `sessions[k] = v` (replaces any existing entry). -/
def store_insert (k : Nat) (v : SessionData) (s : Store) : Store :=
  (k, v) :: s.filter (fun kd => kd.1 != k)

/-- Dict deletion `del sessions[k]`. -/
def store_erase (k : Nat) (s : Store) : Store :=
  s.filter (fun kd => kd.1 != k)

/-- Dict membership `k in sessions`. -/
def store_contains (k : Nat) (s : Store) : Bool :=
  (store_lookup k s).isSome

/-- auth.py `_clean_expired_sessions`: keep entries with expires_at > now. -/
def clean_expired_sessions (now : Nat) (s : Store) : Store :=
  s.filter (fun kd => decide (now < kd.2.expires_at))

/-- auth.py `create_session`: loads the store, drops expired entries, inserts
the new record under the digest of the freshly generated token (the generated
token is the `token` argument here), saves, and returns the raw token. -/
def create_session (hash : String → Nat) (now : Nat) (user token : String)
    (s : Store) : String × Store :=
  let cleaned := clean_expired_sessions now s
  (token,
   store_insert (hash token)
     ⟨user, now, now + SESSION_DURATION_HOURS⟩ cleaned)

/-- auth.py `verify_session`: false on empty token; false if the digest is
absent; if present but expired, deletes the record, saves, and returns false;
otherwise true. Second component is the store as left on disk. -/
def verify_session (hash : String → Nat) (now : Nat) (session_id : String)
    (s : Store) : Bool × Store :=
  if session_id = "" then (false, s)
  else
    match store_lookup (hash session_id) s with
    | none => (false, s)
    | some data =>
      if data.expires_at < now then (false, store_erase (hash session_id) s)
      else (true, s)

/-- auth.py `get_session_user`: returns the stored principal for the digest,
with no expiry check and no store write. -/
def get_session_user (hash : String → Nat) (session_id : String) (s : Store) :
    Option String × Store :=
  if session_id = "" then (none, s)
  else
    match store_lookup (hash session_id) s with
    | some data => (some data.user, s)
    | none => (none, s)

/-- auth.py `revoke_session`: deletes the record for the digest if present
(and only then saves); never touches other entries. -/
def revoke_session (hash : String → Nat) (session_id : String) (s : Store) :
    Bool × Store :=
  if session_id = "" then (false, s)
  else if store_contains (hash session_id) s then
    (true, store_erase (hash session_id) s)
  else (false, s)

/-- Python exception classes relevant to droplet.py: `httpx.HTTPStatusError`
(raised by `raise_for_status`, carrying the response body text) versus every
other exception (connection errors, timeouts, ...). -/
inductive PyErr where
  | httpStatus (text : String)
  | other (msg : String)
deriving DecidableEq

/-- Python `str(e)` on a caught exception (uninterpreted rendering). -/
def pyStr : PyErr → String
  | .httpStatus t => t
  | .other m => m

deriving instance DecidableEq for Except

/-- droplet.py SANDBOX_TAG. -/
def SANDBOX_TAG : String := "sandbox-instance"

/-- droplet.py SANDBOX_NAME. -/
def SANDBOX_NAME : String := "sandbox"

/-- One entry of `droplet["networks"]["v4"]`. -/
structure NetV4 where
  type : Option String
  ip_address : Option String
deriving DecidableEq

/-- Provider droplet record, restricted to the fields droplet.py reads. -/
structure Droplet where
  id : Option Nat
  status : Option String
  networks_v4 : List NetV4
  created_at : Option String
  size_slug : Option String
  region_slug : Option String
deriving DecidableEq

/-- A request issued to the provider API or to the sandbox agent. -/
inductive Req where
  | listDroplets (tag : String)
  | createDroplet (name : String)
  | deleteDroplet (id : Option Nat)
  | dropletAction (id : Nat) (action : String)
  | listSnapshots (id : Nat)
  | agentPost (ip : String)
deriving DecidableEq

/-- droplet.py `_find_sandbox_droplet`: swallows every exception of the
list-by-tag query and returns the first droplet of the answer, if any. -/
def find_sandbox_droplet (listRes : Except PyErr (List Droplet)) :
    Option Droplet :=
  match listRes with
  | .error _ => none
  | .ok droplets => droplets.head?

/-- The dict returned by droplet.py `get_sandbox_status`. -/
structure StatusDict where
  running : Bool
  status : Option String
  droplet_id : Option Nat
  ip_address : Option String
  private_ip : Option String
  created_at : Option String
  size : Option String
  region : Option String
deriving DecidableEq

/-- One iteration of the IP-extraction loop in `get_sandbox_status`: each
public-typed entry overwrites `public_ip`, each private-typed entry
overwrites `private_ip`. -/
def ip_step (acc : Option String × Option String) (n : NetV4) :
    Option String × Option String :=
  if n.type = some "public" then (n.ip_address, acc.2)
  else if n.type = some "private" then (acc.1, n.ip_address)
  else acc

/-- The IP-extraction loop of `get_sandbox_status` over `networks.v4`. -/
def extract_ips (nets : List NetV4) : Option String × Option String :=
  nets.foldl ip_step (none, none)

/-- droplet.py `get_sandbox_status`. -/
def get_sandbox_status (listRes : Except PyErr (List Droplet)) : StatusDict :=
  match find_sandbox_droplet listRes with
  | none => ⟨false, some "not_created", none, none, none, none, none, none⟩
  | some droplet =>
    let ips := extract_ips droplet.networks_v4
    ⟨droplet.status == some "active", droplet.status, droplet.id,
     ips.1, ips.2, droplet.created_at, droplet.size_slug, droplet.region_slug⟩

/-- Result dict of `spawn_sandbox` / `kill_sandbox` (status, message, and the
droplet id when the source dict carries one). -/
structure OpDict where
  status : String
  message : String
  droplet_id : Option Nat
deriving DecidableEq

/-- droplet.py `spawn_sandbox`. `createRes` is the outcome of the create
request (`Except.ok` carries `data["droplet"]["id"]`); only
`httpx.HTTPStatusError` is caught around it, so any other exception raised by
the create request escapes (is returned as `Except.error`). -/
def spawn_sandbox (listRes : Except PyErr (List Droplet))
    (createRes : Except PyErr (Option Nat)) :
    Except PyErr OpDict × List Req :=
  match find_sandbox_droplet listRes with
  | some existing =>
    (Except.ok ⟨"error", "Sandbox already running", existing.id⟩,
     [Req.listDroplets SANDBOX_TAG])
  | none =>
    match createRes with
    | .ok did =>
      (Except.ok ⟨"creating", "Sandbox droplet is being created", did⟩,
       [Req.listDroplets SANDBOX_TAG, Req.createDroplet SANDBOX_NAME])
    | .error (.httpStatus t) =>
      (Except.ok ⟨"error", "Failed to create droplet: " ++ t, none⟩,
       [Req.listDroplets SANDBOX_TAG, Req.createDroplet SANDBOX_NAME])
    | .error (.other m) =>
      (Except.error (PyErr.other m),
       [Req.listDroplets SANDBOX_TAG, Req.createDroplet SANDBOX_NAME])

/-- droplet.py `kill_sandbox`. Only `httpx.HTTPStatusError` is caught around
the destroy request. -/
def kill_sandbox (listRes : Except PyErr (List Droplet))
    (deleteRes : Except PyErr Unit) :
    Except PyErr OpDict × List Req :=
  match find_sandbox_droplet listRes with
  | none =>
    (Except.ok ⟨"ok", "No sandbox running", none⟩,
     [Req.listDroplets SANDBOX_TAG])
  | some droplet =>
    match deleteRes with
    | .ok _ =>
      (Except.ok ⟨"ok", "Sandbox droplet destroyed", droplet.id⟩,
       [Req.listDroplets SANDBOX_TAG, Req.deleteDroplet droplet.id])
    | .error (.httpStatus t) =>
      (Except.ok ⟨"error", "Failed to destroy droplet: " ++ t, none⟩,
       [Req.listDroplets SANDBOX_TAG, Req.deleteDroplet droplet.id])
    | .error (.other m) =>
      (Except.error (PyErr.other m),
       [Req.listDroplets SANDBOX_TAG, Req.deleteDroplet droplet.id])

/-- A `{status, message}` dict (apply_network_config results and the agent's
own response shape). -/
structure ResultDict where
  status : String
  message : String
deriving DecidableEq

/-- droplet.py `apply_network_config`. `agentRes` is the outcome of the POST
to the agent (`Except.ok` carries the agent's parsed JSON response, passed
through unmodified); every exception of that POST is caught. -/
def apply_network_config (listRes : Except PyErr (List Droplet))
    (agentRes : Except PyErr ResultDict) : ResultDict × List Req :=
  let st := get_sandbox_status listRes
  if st.running = false then
    (⟨"error", "Sandbox not running"⟩, [Req.listDroplets SANDBOX_TAG])
  else
    match st.private_ip with
    | none =>
      (⟨"error", "No private IP for sandbox"⟩, [Req.listDroplets SANDBOX_TAG])
    | some ip =>
      if ip = "" then
        (⟨"error", "No private IP for sandbox"⟩,
         [Req.listDroplets SANDBOX_TAG])
      else
        match agentRes with
        | .ok r => (r, [Req.listDroplets SANDBOX_TAG, Req.agentPost ip])
        | .error e =>
          (⟨"error", pyStr e⟩,
           [Req.listDroplets SANDBOX_TAG, Req.agentPost ip])

/-- One snapshot entry of the builder's list-snapshots answer. -/
structure Snapshot where
  id : Option Nat
deriving DecidableEq

/-- The dict returned by droplet.py `build_sandbox_snapshot` (`snapshot_id`
is none on every error path). -/
structure BuildDict where
  status : String
  snapshot_id : Option Nat
  message : String
deriving DecidableEq

/-- Outcomes of the five remote calls `build_sandbox_snapshot` can make, in
source order: create builder, shutdown action, snapshot action, list
snapshots, delete builder. `createRes` carries `data["droplet"]["id"]`. -/
structure BuildEnv where
  createRes : Except PyErr (Option Nat)
  shutdownRes : Except PyErr Unit
  snapshotActionRes : Except PyErr Unit
  listSnapshotsRes : Except PyErr (List Snapshot)
  deleteRes : Except PyErr Unit
deriving DecidableEq

/-- droplet.py `build_sandbox_snapshot`: the whole body sits in one
`try/except Exception`, so the first raising call jumps to the handler, which
returns an error dict with `str(e)` — skipping every later call, including
the builder DELETE, which the source issues only after create, shutdown,
snapshot and list-snapshots all succeeded. The fixed `asyncio.sleep` waits
are no-ops here. -/
def build_sandbox_snapshot (env : BuildEnv) : BuildDict × List Req :=
  match env.createRes with
  | .error e => (⟨"error", none, pyStr e⟩, [Req.createDroplet "sandbox-builder"])
  | .ok none =>
    (⟨"error", none, "Failed to create builder droplet"⟩,
     [Req.createDroplet "sandbox-builder"])
  | .ok (some droplet_id) =>
    match env.shutdownRes with
    | .error e =>
      (⟨"error", none, pyStr e⟩,
       [Req.createDroplet "sandbox-builder",
        Req.dropletAction droplet_id "shutdown"])
    | .ok _ =>
      match env.snapshotActionRes with
      | .error e =>
        (⟨"error", none, pyStr e⟩,
         [Req.createDroplet "sandbox-builder",
          Req.dropletAction droplet_id "shutdown",
          Req.dropletAction droplet_id "snapshot"])
      | .ok _ =>
        match env.listSnapshotsRes with
        | .error e =>
          (⟨"error", none, pyStr e⟩,
           [Req.createDroplet "sandbox-builder",
            Req.dropletAction droplet_id "shutdown",
            Req.dropletAction droplet_id "snapshot",
            Req.listSnapshots droplet_id])
        | .ok snapshot_list =>
          match env.deleteRes with
          | .error e =>
            (⟨"error", none, pyStr e⟩,
             [Req.createDroplet "sandbox-builder",
              Req.dropletAction droplet_id "shutdown",
              Req.dropletAction droplet_id "snapshot",
              Req.listSnapshots droplet_id,
              Req.deleteDroplet (some droplet_id)])
          | .ok _ =>
            match snapshot_list.getLast? with
            | some snap =>
              (⟨"ok", snap.id, "Snapshot created successfully"⟩,
               [Req.createDroplet "sandbox-builder",
                Req.dropletAction droplet_id "shutdown",
                Req.dropletAction droplet_id "snapshot",
                Req.listSnapshots droplet_id,
                Req.deleteDroplet (some droplet_id)])
            | none =>
              (⟨"error", none, "Snapshot not found"⟩,
               [Req.createDroplet "sandbox-builder",
                Req.dropletAction droplet_id "shutdown",
                Req.dropletAction droplet_id "snapshot",
                Req.listSnapshots droplet_id,
                Req.deleteDroplet (some droplet_id)])

/-- The pydantic body of main.py `update_network_config`; the contents of
the two dict fields are opaque to the claims and modelled as string maps. -/
structure NetworkConfigUpdate where
  containers : List (String × String)
  inter_container : List (String × String)
deriving DecidableEq

/-- Observable outcome of main.py `update_network_config`: the JSON response
(status and echoed config), the config written to network_config.json, and
the requests issued. -/
structure UpdateOutcome where
  response_status : String
  response_config : NetworkConfigUpdate
  saved_config : NetworkConfigUpdate
  trace : List Req
deriving DecidableEq

/-- main.py `update_network_config`: saves the config, queries status, and —
when running — awaits `apply_network_config` (whose two remote outcomes are
`listRes2` and `agentRes`) but discards its return value; the endpoint then
returns `{"status": "ok", "config": ...}` unconditionally. -/
def update_network_config (config : NetworkConfigUpdate)
    (listRes1 listRes2 : Except PyErr (List Droplet))
    (agentRes : Except PyErr ResultDict) : UpdateOutcome :=
  let saved := config
  let st := get_sandbox_status listRes1
  if st.running = true then
    ⟨"ok", config, saved,
     Req.listDroplets SANDBOX_TAG :: (apply_network_config listRes2 agentRes).2⟩
  else
    ⟨"ok", config, saved, [Req.listDroplets SANDBOX_TAG]⟩

/-- First element of a network list whose type field matches `t`; applied to
a reversed list this names the last matching entry of the original list. -/
def first_entry_of_type (t : String) : List NetV4 → Option NetV4
  | [] => none
  | n :: rest =>
    if n.type = some t then some n else first_entry_of_type t rest

/-- A provider droplet that is active, with several public- and
private-typed network attachments, in list order. -/
def sampleMultiNetDroplet : Droplet :=
  ⟨some 5, some "active",
   [⟨some "public", some "203.0.113.1"⟩, ⟨some "public", some "203.0.113.2"⟩,
    ⟨some "private", some "10.0.0.1"⟩, ⟨some "private", some "10.0.0.2"⟩],
   none, none, none⟩

/-- An active provider droplet with one private address. -/
def sampleActiveDroplet : Droplet :=
  ⟨some 1, some "active", [⟨some "private", some "10.0.0.2"⟩],
   none, none, none⟩

/-- A snapshot-build run whose builder is created (id 7) and whose shutdown
action then raises a non-HTTP exception. -/
def sampleFailEnv : BuildEnv :=
  ⟨.ok (some 7), .error (.other "Connection reset"), .ok (), .ok [], .ok ()⟩

/-- A session store holding one record whose expiry (5) has passed at tick
10 and one live record, under digests 100 and 3. -/
def sampleStore : Store :=
  [(100, ⟨"u", 0, 5⟩), (3, ⟨"v", 0, 50⟩)]

/-- A snapshot-build run in which every remote call succeeds and the builder
(id 7) has one snapshot (id 42). -/
def sampleOkEnv : BuildEnv :=
  ⟨.ok (some 7), .ok (), .ok (), .ok [⟨some 42⟩], .ok ()⟩

theorem store_lookup_insert (k : Nat) (v : SessionData) (s : Store) :
    store_lookup k (store_insert k v s) = some v := by
  simp [store_lookup, store_insert, List.find?_cons]

theorem store_lookup_erase (k : Nat) (s : Store) :
    store_lookup k (store_erase k s) = none := by
  induction s with
  | nil => rfl
  | cons kd rest ih =>
    by_cases h : kd.1 = k
    · simp only [store_erase, store_lookup, List.filter_cons, List.find?_cons,
        h] at ih ⊢
      simp [h, ih]
    · simp only [store_erase, store_lookup, List.filter_cons, List.find?_cons,
        h] at ih ⊢
      simp [h, ih]

theorem first_entry_append (t : String) (xs : List NetV4) (n : NetV4) :
    first_entry_of_type t (xs ++ [n]) =
      match first_entry_of_type t xs with
      | some m => some m
      | none => if n.type = some t then some n else none := by
  induction xs with
  | nil => simp [first_entry_of_type]
  | cons x xs ih =>
    by_cases h : x.type = some t
    · simp [first_entry_of_type, h]
    · simp only [List.cons_append, first_entry_of_type, h, if_false]
      exact ih

theorem foldl_ip_step (nets : List NetV4) (acc : Option String × Option String) :
    nets.foldl ip_step acc =
      ((match first_entry_of_type "public" nets.reverse with
        | some n => n.ip_address
        | none => acc.1),
       (match first_entry_of_type "private" nets.reverse with
        | some n => n.ip_address
        | none => acc.2)) := by
  induction nets generalizing acc with
  | nil => simp [first_entry_of_type]
  | cons n rest ih =>
    rw [List.foldl_cons, ih (ip_step acc n), List.reverse_cons,
      first_entry_append, first_entry_append]
    by_cases hpub : n.type = some "public"
    · have hpriv : ¬ n.type = some "private" := by simp [hpub]
      cases hp : first_entry_of_type "public" rest.reverse <;>
        cases hq : first_entry_of_type "private" rest.reverse <;>
          simp [ip_step, hpub, hpriv]
    · by_cases hpriv : n.type = some "private"
      · cases hp : first_entry_of_type "public" rest.reverse <;>
          cases hq : first_entry_of_type "private" rest.reverse <;>
            simp [ip_step, hpub, hpriv]
      · cases hp : first_entry_of_type "public" rest.reverse <;>
          cases hq : first_entry_of_type "private" rest.reverse <;>
            simp [ip_step, hpub, hpriv]

/-- Claim C1 (counterexample): a BuildSnapshot run whose builder was created
successfully (id 7) and whose shutdown action then raised a non-HTTP
exception returns an error result without ever issuing the destroy request
for the builder — cleanup is skipped when a step of the saga raises,
refuting the claim. -/
theorem build_snapshot_cleanup_counterexample :
    build_sandbox_snapshot sampleFailEnv =
      (⟨"error", none, "Connection reset"⟩,
       [Req.createDroplet "sandbox-builder", Req.dropletAction 7 "shutdown"]) ∧
    Req.deleteDroplet (some 7) ∉ (build_sandbox_snapshot sampleFailEnv).2 :=
  ⟨rfl, by decide⟩

/-- Claim C1 (amended): the destroy request for a successfully created
builder is issued on every run in which the shutdown, snapshot and
list-snapshots calls raise no exception — covering the success outcome, the
"Snapshot not found" error outcome, and a failing destroy call — but a run
in which one of those calls raises skips the destroy (as the counterexample
shows). -/
theorem build_snapshot_cleanup_amended (env : BuildEnv) (did : Nat)
    (hc : env.createRes = .ok (some did))
    (hs : env.shutdownRes = .ok ())
    (ha : env.snapshotActionRes = .ok ())
    (hl : ∃ snaps, env.listSnapshotsRes = .ok snaps) :
    Req.deleteDroplet (some did) ∈ (build_sandbox_snapshot env).2 := by
  obtain ⟨snaps, hl⟩ := hl
  cases hd : env.deleteRes with
  | error e => simp [build_sandbox_snapshot, hc, hs, ha, hl, hd]
  | ok v =>
    cases hgl : snaps.getLast? <;>
      simp [build_sandbox_snapshot, hc, hs, ha, hl, hd, hgl]

/-- Witness for build_snapshot_cleanup_amended at the all-success run. -/
theorem build_snapshot_cleanup_amended_witness :
    sampleOkEnv.createRes = Except.ok (some 7) ∧
    sampleOkEnv.shutdownRes = Except.ok () ∧
    sampleOkEnv.snapshotActionRes = Except.ok () ∧
    sampleOkEnv.listSnapshotsRes = Except.ok [(⟨some 42⟩ : Snapshot)] ∧
    Req.deleteDroplet (some 7) ∈ (build_sandbox_snapshot sampleOkEnv).2 :=
  ⟨rfl, rfl, rfl, rfl,
   build_snapshot_cleanup_amended sampleOkEnv 7 rfl rfl rfl
     ⟨[⟨some 42⟩], rfl⟩⟩

/-- Claim C2 (counterexample): with an active sandbox (private address
10.0.0.2) and an agent POST that raises, the application step fails — its
result is an error dict — yet the endpoint still answers "ok", refuting
"never returns a success result when the application was attempted and
failed". -/
theorem update_network_config_counterexample :
    (update_network_config ⟨[], []⟩ (.ok [sampleActiveDroplet])
        (.ok [sampleActiveDroplet]) (.error (.other "timed out"))).response_status
      = "ok" ∧
    Req.agentPost "10.0.0.2" ∈
      (update_network_config ⟨[], []⟩ (.ok [sampleActiveDroplet])
        (.ok [sampleActiveDroplet]) (.error (.other "timed out"))).trace ∧
    (apply_network_config (.ok [sampleActiveDroplet])
        (.error (.other "timed out"))).1 = ⟨"error", "timed out"⟩ :=
  ⟨rfl, by decide, rfl⟩

/-- Claim C2 (amended): the endpoint persists the configuration and, when
the status query reports the sandbox running, synchronously invokes the
application step before returning; but it discards the application result
and returns a success response unconditionally, even when application
failed. -/
theorem update_network_config_amended (config : NetworkConfigUpdate)
    (l1 l2 : Except PyErr (List Droplet)) (ag : Except PyErr ResultDict) :
    (update_network_config config l1 l2 ag).response_status = "ok" ∧
    (update_network_config config l1 l2 ag).saved_config = config ∧
    (update_network_config config l1 l2 ag).trace =
      Req.listDroplets SANDBOX_TAG ::
        (if (get_sandbox_status l1).running = true
         then (apply_network_config l2 ag).2 else []) := by
  by_cases h : (get_sandbox_status l1).running = true <;>
    simp [update_network_config, h]

/-- Claim C3 (counterexample): with two public-typed and two private-typed
attachments, GetStatus reports the second (last) public and private entries,
not the first ones — refuting "first public-typed and first private-typed
entries". -/
theorem get_status_addresses_counterexample :
    (get_sandbox_status (.ok [sampleMultiNetDroplet])).ip_address =
      some "203.0.113.2" ∧
    (get_sandbox_status (.ok [sampleMultiNetDroplet])).private_ip =
      some "10.0.0.2" ∧
    sampleMultiNetDroplet.networks_v4.head? =
      some ⟨some "public", some "203.0.113.1"⟩ ∧
    (some "203.0.113.2" : Option String) ≠ some "203.0.113.1" :=
  ⟨rfl, rfl, rfl, by decide⟩

/-- Claim C3 (amended): GetStatus reports as public address the last
public-typed entry of the attachment list and as private address its last
private-typed entry (each loop iteration overwrites the previous match). -/
theorem get_status_addresses_amended (d : Droplet) (ds : List Droplet) :
    (get_sandbox_status (.ok (d :: ds))).ip_address =
      (first_entry_of_type "public" d.networks_v4.reverse).bind
        (fun n => n.ip_address) ∧
    (get_sandbox_status (.ok (d :: ds))).private_ip =
      (first_entry_of_type "private" d.networks_v4.reverse).bind
        (fun n => n.ip_address) := by
  have h := foldl_ip_step d.networks_v4 (none, none)
  constructor
  · simp only [get_sandbox_status, find_sandbox_droplet, List.head?_cons,
      extract_ips, h]
    cases first_entry_of_type "public" d.networks_v4.reverse <;> simp
  · simp only [get_sandbox_status, find_sandbox_droplet, List.head?_cons,
      extract_ips, h]
    cases first_entry_of_type "private" d.networks_v4.reverse <;> simp

/-- Claim C4 (counterexample): a connection error — an exception that is not
an HTTP-status error — raised by the create request escapes Spawn, and one
raised by the destroy request escapes Kill, refuting "no exception escapes
the operation to its caller". -/
theorem no_exception_escapes_counterexample :
    (spawn_sandbox (.ok []) (.error (.other "Connection refused"))).1 =
      Except.error (PyErr.other "Connection refused") ∧
    (kill_sandbox (.ok [sampleActiveDroplet])
        (.error (.other "Connection refused"))).1 =
      Except.error (PyErr.other "Connection refused") :=
  ⟨rfl, rfl⟩

/-- Claim C4 (amended): GetStatus, ApplyNetworkConfig and BuildSnapshot
always return a structured result, but Spawn and Kill catch only provider
HTTP-status errors around their mutation request: Spawn raises exactly when
no droplet was found and the create request raised a non-HTTP-status
exception, and Kill raises exactly when a droplet was found and the destroy
request raised a non-HTTP-status exception. -/
theorem exception_escape_amended (l : Except PyErr (List Droplet))
    (c : Except PyErr (Option Nat)) (del : Except PyErr Unit) (e : PyErr) :
    ((spawn_sandbox l c).1 = Except.error e ↔
      find_sandbox_droplet l = none ∧ c = Except.error e ∧
        ∃ m, e = PyErr.other m) ∧
    ((kill_sandbox l del).1 = Except.error e ↔
      (find_sandbox_droplet l).isSome = true ∧ del = Except.error e ∧
        ∃ m, e = PyErr.other m) := by
  constructor
  · cases hf : find_sandbox_droplet l with
    | some d => simp [spawn_sandbox, hf]
    | none =>
      cases c with
      | ok did => cases e <;> simp [spawn_sandbox, hf]
      | error pe => cases pe <;> cases e <;> simp [spawn_sandbox, hf]
  · cases hf : find_sandbox_droplet l with
    | none => simp [kill_sandbox, hf]
    | some d =>
      cases del with
      | ok v => cases e <;> simp [kill_sandbox, hf]
      | error pe => cases pe <;> cases e <;> simp [kill_sandbox, hf]

/-- Claim C5 (confirmed): with no instance matching the discovery tag, Spawn
issues exactly one create request and returns the creating result carrying
the new instance id; with an existing instance, Spawn returns the
already-running result carrying the existing instance's id and issues no
create request. -/
theorem spawn_idempotency (newId : Nat) (d : Droplet) (ds : List Droplet)
    (c : Except PyErr (Option Nat)) :
    spawn_sandbox (.ok []) (.ok (some newId)) =
      (Except.ok ⟨"creating", "Sandbox droplet is being created", some newId⟩,
       [Req.listDroplets SANDBOX_TAG, Req.createDroplet SANDBOX_NAME]) ∧
    (spawn_sandbox (.ok []) (.ok (some newId))).2.count
      (Req.createDroplet SANDBOX_NAME) = 1 ∧
    spawn_sandbox (.ok (d :: ds)) c =
      (Except.ok ⟨"error", "Sandbox already running", d.id⟩,
       [Req.listDroplets SANDBOX_TAG]) ∧
    Req.createDroplet SANDBOX_NAME ∉ (spawn_sandbox (.ok (d :: ds)) c).2 := by
  refine ⟨rfl, by rfl, rfl, ?_⟩
  simp [spawn_sandbox, find_sandbox_droplet, SANDBOX_NAME, SANDBOX_TAG]

/-- Claim C6 (counterexample): revoking the live session (digest 3: token
"tok" under the length digest function) succeeds but leaves the record under
digest 100 in the store even though its expiry (5) has passed at tick 10 —
session revocation does not remove expired entries, refuting "after any
store mutation no expired record remains". -/
theorem store_mutation_cleanup_counterexample :
    revoke_session String.length "tok" sampleStore =
      (true, [(100, ⟨"u", 0, 5⟩)]) ∧
    ((revoke_session String.length "tok" sampleStore).2.any
      (fun kd => decide (kd.2.expires_at < 10))) = true :=
  ⟨rfl, rfl⟩

/-- Claim C6 (amended): session creation first removes every expired entry —
each record in the store it writes has an expiry strictly after now — while
session revocation removes only the record whose digest matches the
presented token: every other entry, expired ones included, survives
unchanged. -/
theorem store_mutation_cleanup_amended (hash : String → Nat) (now : Nat)
    (u tok sid : String) (s : Store) :
    ((create_session hash now u tok s).2.all
      (fun kd => decide (now < kd.2.expires_at))) = true ∧
    (revoke_session hash sid s).2.filter (fun kd => kd.1 != hash sid) =
      s.filter (fun kd => kd.1 != hash sid) := by
  constructor
  · rw [List.all_eq_true]
    intro kd hkd
    simp only [create_session, store_insert, clean_expired_sessions,
      List.mem_cons, List.mem_filter] at hkd
    rcases hkd with h1 | ⟨⟨hmem, hcl⟩, hne⟩
    · subst h1
      simp [SESSION_DURATION_HOURS]
    · exact hcl
  · by_cases h0 : sid = ""
    · simp [revoke_session, h0]
    · by_cases hc : store_contains (hash sid) s = true
      · simp only [revoke_session, h0, if_neg, hc, if_true, store_erase,
          List.filter_filter]
        simp
      · simp [revoke_session, h0, hc]

/-- Claim C7 (confirmed): for every principal and store state, CreateSession
followed immediately by VerifySession with the returned token yields true,
and VerifySession with any token whose digest is not a key of the store —
i.e. any token other than one returned by a live CreateSession — yields
false. -/
theorem create_then_verify (hash : String → Nat) (now : Nat)
    (u tok tok2 : String) (s : Store) (ht : tok ≠ "")
    (hc : store_contains (hash tok2) (create_session hash now u tok s).2
      = false) :
    (verify_session hash now tok (create_session hash now u tok s).2).1
      = true ∧
    (verify_session hash now tok2 (create_session hash now u tok s).2).1
      = false := by
  have hl : store_lookup (hash tok) (create_session hash now u tok s).2 =
      some ⟨u, now, now + SESSION_DURATION_HOURS⟩ := by
    simp only [create_session]
    exact store_lookup_insert _ _ _
  constructor
  · have hnl : ¬ (now + SESSION_DURATION_HOURS < now) := by omega
    simp [verify_session, ht, hl, hnl]
  · have h2 : store_lookup (hash tok2) (create_session hash now u tok s).2
        = none := by
      rcases hx : store_lookup (hash tok2) (create_session hash now u tok s).2
        with _ | v
      · rfl
      · rw [store_contains, hx] at hc
        simp at hc
    by_cases h0 : tok2 = ""
    · simp [verify_session, h0]
    · simp [verify_session, h0, h2]

/-- Witness for create_then_verify: token "a", other token "bb", empty
store, length as digest function. -/
theorem create_then_verify_witness :
    ("a" : String) ≠ "" ∧
    store_contains (String.length "bb")
      (create_session String.length 0 "admin" "a" []).2 = false ∧
    ((verify_session String.length 0 "a"
        (create_session String.length 0 "admin" "a" []).2).1 = true ∧
     (verify_session String.length 0 "bb"
        (create_session String.length 0 "admin" "a" []).2).1 = false) :=
  ⟨by decide, by rfl,
   create_then_verify String.length 0 "admin" "a" "bb" [] (by decide)
     (by rfl)⟩

/-- Claim C8 (confirmed): a VerifySession call on a stored record whose
expiry has passed returns false, the record is absent from the store the
call leaves behind, and a subsequent VerifySession with the same token also
returns false. -/
theorem expired_session_lazy_deletion (hash : String → Nat) (now : Nat)
    (sid : String) (s : Store) (d : SessionData) (h0 : sid ≠ "")
    (hl : store_lookup (hash sid) s = some d) (hexp : d.expires_at < now) :
    (verify_session hash now sid s).1 = false ∧
    store_lookup (hash sid) (verify_session hash now sid s).2 = none ∧
    (verify_session hash now sid (verify_session hash now sid s).2).1
      = false := by
  have h2 : verify_session hash now sid s =
      (false, store_erase (hash sid) s) := by
    simp [verify_session, h0, hl, hexp]
  have he : store_lookup (hash sid) (store_erase (hash sid) s) = none :=
    store_lookup_erase (hash sid) s
  refine ⟨by simp [h2], by simp [h2, he], ?_⟩
  rw [h2]
  simp [verify_session, h0, he]

/-- Witness for expired_session_lazy_deletion: token "a" (digest 1), store
with one record expired at 5, verified at tick 10. -/
theorem expired_session_lazy_deletion_witness :
    ("a" : String) ≠ "" ∧
    store_lookup (String.length "a") [(1, (⟨"u", 0, 5⟩ : SessionData))] =
      some ⟨"u", 0, 5⟩ ∧
    (5 : Nat) < 10 ∧
    ((verify_session String.length 10 "a"
        [(1, (⟨"u", 0, 5⟩ : SessionData))]).1 = false ∧
     store_lookup (String.length "a")
       (verify_session String.length 10 "a"
         [(1, (⟨"u", 0, 5⟩ : SessionData))]).2 = none ∧
     (verify_session String.length 10 "a"
        (verify_session String.length 10 "a"
          [(1, (⟨"u", 0, 5⟩ : SessionData))]).2).1 = false) :=
  ⟨by decide, by rfl, by decide,
   expired_session_lazy_deletion String.length 10 "a"
     [(1, ⟨"u", 0, 5⟩)] ⟨"u", 0, 5⟩ (by decide) (by rfl) (by decide)⟩

/-- Claim C9 (confirmed): when the list-by-tag query raises, the failure is
swallowed and indistinguishable from "no instance": GetStatus returns the
not_created record with null addresses, Kill returns ok "No sandbox running"
and issues no destroy request, and Spawn's idempotency guard passes so a
create request is issued. -/
theorem provider_outage_as_not_created (e : PyErr)
    (delRes : Except PyErr Unit) (nid : Nat) :
    get_sandbox_status (.error e) =
      ⟨false, some "not_created", none, none, none, none, none, none⟩ ∧
    kill_sandbox (.error e) delRes =
      (Except.ok ⟨"ok", "No sandbox running", none⟩,
       [Req.listDroplets SANDBOX_TAG]) ∧
    (∀ i, Req.deleteDroplet i ∉ (kill_sandbox (.error e) delRes).2) ∧
    (spawn_sandbox (.error e) (.ok (some nid))).1 =
      Except.ok ⟨"creating", "Sandbox droplet is being created", some nid⟩ ∧
    Req.createDroplet SANDBOX_NAME ∈
      (spawn_sandbox (.error e) (.ok (some nid))).2 := by
  refine ⟨rfl, rfl, ?_, rfl, ?_⟩
  · intro i
    simp [kill_sandbox, find_sandbox_droplet]
  · simp [spawn_sandbox, find_sandbox_droplet]

/-- Claim C10 (confirmed): for a token whose digest is present in the store,
get_session_user returns the stored principal and leaves the store unchanged
even when the record's expiry has already passed — it performs no expiry
check and deletes nothing — while verify_session with the same token at the
same time returns false. -/
theorem get_session_user_ignores_expiry (hash : String → Nat) (now : Nat)
    (sid : String) (s : Store) (d : SessionData) (h0 : sid ≠ "")
    (hl : store_lookup (hash sid) s = some d) (hexp : d.expires_at < now) :
    get_session_user hash sid s = (some d.user, s) ∧
    (verify_session hash now sid s).1 = false := by
  constructor
  · simp [get_session_user, h0, hl]
  · simp [verify_session, h0, hl, hexp]

/-- Witness for get_session_user_ignores_expiry: token "a" (digest 1), one
record expired at 5, accessed at tick 10. -/
theorem get_session_user_ignores_expiry_witness :
    ("a" : String) ≠ "" ∧
    store_lookup (String.length "a") [(1, (⟨"u", 0, 5⟩ : SessionData))] =
      some ⟨"u", 0, 5⟩ ∧
    (5 : Nat) < 10 ∧
    (get_session_user String.length "a"
        [(1, (⟨"u", 0, 5⟩ : SessionData))] =
      (some "u", [(1, ⟨"u", 0, 5⟩)]) ∧
     (verify_session String.length 10 "a"
        [(1, (⟨"u", 0, 5⟩ : SessionData))]).1 = false) :=
  ⟨by decide, by rfl, by decide,
   get_session_user_ignores_expiry String.length 10 "a"
     [(1, ⟨"u", 0, 5⟩)] ⟨"u", 0, 5⟩ (by decide) (by rfl) (by decide)⟩

end Orchestrator
